import Mathlib

/-!
Shallow embedding of the agri-link canister
(`src/dfinity_js_backend/src/index.ts`) in Lean 4.

Modelling conventions:
- Candid `nat64` fields live in JavaScript as `BigInt`, an unbounded signed
  integer; they are modelled as `Int`.  Candid decoding guarantees that
  `nat64`-typed *parameters* are non-negative, which becomes an explicit
  hypothesis where a theorem needs it.  Several endpoints take amounts as
  `text` and parse them with `BigInt(...)`, so those amounts can be any
  integer; they are modelled as an arbitrary `Int` argument.
- The azle `StableBTreeMap`s (`productsStorage`, `ordersStorage`,
  `reviewsStorage`) are modelled as association lists with `mapGet`,
  `mapInsert` (insert-or-replace by key) and `mapValues`.
- An azle `Opt(text)` value is the JavaScript object `{ None: null }` or
  `{ Some: v }`; both are objects and every JavaScript object is truthy.
  `OptText.jsTruthy` records this fact, which the source relies on in
  `product_bid` (`if (product.buyerAddress)`).
- JavaScript truthiness of strings (empty string is falsy) and of BigInt
  (`0n` is falsy) is modelled by `jsTruthyString` / `jsTruthyInt`.
- On the Internet Computer an update call that *returns* an `Err` value
  still commits every storage write made before the return.  Each
  operation therefore returns the result together with the post-call
  state, and mutations performed before an error are kept.
- `StableBTreeMap.insert` candid-encodes the value against its declared
  type.  A nat64 field accepts only a BigInt in [0, 2^64): a negative
  BigInt or a string makes the encoder throw, the call traps and all of
  its writes are rolled back.  The writes that can carry such a value —
  the escrow-balance writes (their text amounts are unvalidated, and
  `release_payment` assigns the string `"0"`) and the rating write of
  `rate_product` (raw text) — go through the encoding-checked
  `insertEscrowBalance` / `insertRating`, whose result `Option.none`
  models the trap.  The remaining product writes only ever store BigInts
  kept inside nat64 range by their guards and candid-decoded inputs, and
  use the plain `mapInsert`.
- The identity / authorization preamble of each endpoint
  (`getUserByPrincipal`, role checks) is the external Identity collaborator
  per the specification and is outside the embedded core; the embedding
  starts after it, taking the already-resolved caller data (`sellerId`,
  `userId`, `buyerId`) as parameters.  Generated ids (`uuidv4()`) and
  timestamps (`ic.time()`) are likewise parameters.
-/

deriving instance DecidableEq for Except

namespace AgriLink

/-- The `Message` variant of the source: `Success`, `Error`, `NotFound`,
`InvalidPayload`, each carrying a text. -/
inductive Message where
  | Success (msg : String)
  | Error (msg : String)
  | NotFound (msg : String)
  | InvalidPayload (msg : String)
deriving DecidableEq, Repr

/-- An azle `Opt(text)` runtime value: `{ None: null }` or `{ Some: v }`. -/
inductive OptText where
  | none
  | some (s : String)
deriving DecidableEq, Repr

/-- JavaScript truthiness of an azle `Opt` value: both `{ None: null }` and
`{ Some: v }` are objects, and every JavaScript object is truthy. -/
def OptText.jsTruthy : OptText → Bool := fun _ => true

/-- JavaScript truthiness of a string: only `""` is falsy. -/
def jsTruthyString (s : String) : Bool := !s.isEmpty

/-- JavaScript truthiness of a BigInt: only `0n` is falsy. -/
def jsTruthyInt (n : Int) : Bool := n != 0

/-- The `Product` record of the source.  `category` is modelled by its
variant tag; `price`, `stock`, `rating`, `escrowBalance` are `nat64`
fields holding JavaScript BigInt values, modelled as `Int`. -/
structure Product where
  id : String
  sellerId : String
  name : String
  description : String
  category : String
  price : Int
  stock : Int
  rating : Int
  reviews : List String
  status : String
  escrowBalance : Int
  disputeStatus : Bool
  buyerAddress : OptText
deriving DecidableEq, Repr

/-- The `CartItem` record: `(productId, quantity, price)`. -/
structure CartItem where
  productId : String
  quantity : Int
  price : Int
deriving DecidableEq, Repr

/-- The `Order` record of the source. -/
structure Order where
  id : String
  buyerId : String
  products : List CartItem
  totalAmount : Int
  status : String
  createdAt : Int
deriving DecidableEq, Repr

/-- The `Review` record of the source. -/
structure Review where
  productId : String
  userId : String
  rating : Int
  comment : String
  createdAt : Int
deriving DecidableEq, Repr

/-- The `ProductPayload` record of the source. -/
structure ProductPayload where
  name : String
  description : String
  category : String
  price : Int
  stock : Int
deriving DecidableEq, Repr

/-- The `ReviewPayload` record of the source. -/
structure ReviewPayload where
  productId : String
  rating : Int
  comment : String
deriving DecidableEq, Repr

/-- Lookup in a keyed collection (`StableBTreeMap.get`). -/
def mapGet {α : Type} (m : List (String × α)) (k : String) : Option α :=
  (m.find? (fun kv => kv.fst == k)).map (fun kv => kv.snd)

/-- Insert-or-replace in a keyed collection (`StableBTreeMap.insert`). -/
def mapInsert {α : Type} (m : List (String × α)) (k : String) (v : α) :
    List (String × α) :=
  match m with
  | [] => [(k, v)]
  | kv :: rest => if kv.fst == k then (k, v) :: rest else kv :: mapInsert rest k v

/-- All stored values (`StableBTreeMap.values`). -/
def mapValues {α : Type} (m : List (String × α)) : List α :=
  m.map (fun kv => kv.snd)

/-- The persisted state touched by the embedded core: the `productsStorage`,
`ordersStorage` and `reviewsStorage` keyed collections. -/
structure State where
  products : List (String × Product)
  orders : List (String × Order)
  reviews : List (String × Review)
deriving DecidableEq, Repr

/-- `addProduct` (source lines 188-226), after the seller-role check.
The payload presence check uses JavaScript truthiness: `!payload.price` and
`!payload.stock` are true for the BigInt `0n`, and `!payload.name` /
`!payload.description` are true for the empty string.  `payload.category`
is a variant object, hence always truthy, so it never fails the check. -/
def addProduct (st : State) (payload : ProductPayload)
    (sellerId productId : String) : Except Message Product × State :=
  if !(jsTruthyString payload.name && jsTruthyString payload.description
        && jsTruthyInt payload.price && jsTruthyInt payload.stock) then
    (Except.error (Message.InvalidPayload
      "Ensure name, description, category, price, and stock are provided."), st)
  else
    let product : Product :=
      { id := productId
        sellerId := sellerId
        name := payload.name
        description := payload.description
        category := payload.category
        price := payload.price
        stock := payload.stock
        rating := 0
        reviews := []
        status := if payload.stock > 0 then "available" else "out of stock"
        escrowBalance := 0
        disputeStatus := false
        buyerAddress := OptText.none }
    (Except.ok product, { st with products := mapInsert st.products productId product })

/-- `addReview` (source lines 229-274), after the consumer-role check.
Presence check by JavaScript truthiness (rating `0n` is falsy), then the
range check `rating < 1n || rating > 5n`, then the product lookup.  On
success the review is inserted and the product rating is recomputed as the
BigInt quotient (truncation toward zero, `Int.tdiv`) of the sum of the
ratings of all stored reviews for this product by their count. -/
def addReview (st : State) (payload : ReviewPayload)
    (userId reviewId : String) (now : Int) : Except Message Review × State :=
  if !(jsTruthyString payload.productId && jsTruthyInt payload.rating
        && jsTruthyString payload.comment) then
    (Except.error (Message.InvalidPayload
      "Ensure productId, rating, and comment are provided."), st)
  else if payload.rating < 1 ∨ payload.rating > 5 then
    (Except.error (Message.InvalidPayload "Rating must be between 1 and 5"), st)
  else
    match mapGet st.products payload.productId with
    | Option.none => (Except.error (Message.NotFound "Product not found"), st)
    | Option.some product =>
      let review : Review :=
        { productId := payload.productId
          userId := userId
          rating := payload.rating
          comment := payload.comment
          createdAt := now }
      let reviews1 := mapInsert st.reviews reviewId review
      let productReviews :=
        (mapValues reviews1).filter (fun r => r.productId == product.id)
      let totalRating := productReviews.foldl (fun sum r => sum + r.rating) 0
      let product1 := { product with
        rating := Int.tdiv totalRating (productReviews.length : Int) }
      (Except.ok review,
       { st with
          reviews := reviews1
          products := mapInsert st.products product.id product1 })

/-- The `for (const item of cartItems)` loop of `checkout` (source lines
316-339).  Each iteration re-reads the product, fails on a missing product
or insufficient stock, and otherwise accumulates the total using the price
read from storage, records the line item with that price, decrements the
stock and immediately persists the product.  The (possibly partially
mutated) products collection is returned alongside the result, because a
returned `Err` does not undo writes already made. -/
def checkoutLoop (products : List (String × Product)) (items : List CartItem)
    (totalAmount : Int) (acc : List CartItem) :
    Except Message (Int × List CartItem) × List (String × Product) :=
  match items with
  | [] => (Except.ok (totalAmount, acc), products)
  | item :: rest =>
    match mapGet products item.productId with
    | Option.none =>
      (Except.error (Message.NotFound ("Product not found: " ++ item.productId)),
       products)
    | Option.some product =>
      if product.stock < item.quantity then
        (Except.error (Message.Error
          ("Insufficient stock for product: " ++ product.name)), products)
      else
        checkoutLoop
          (mapInsert products product.id ({ product with stock := product.stock - item.quantity }))
          rest
          (totalAmount + product.price * item.quantity)
          (acc ++ [{ productId := item.productId
                     quantity := item.quantity
                     price := product.price }])

/-- `checkout` (source lines 299-353), after the consumer-role check.
Empty carts are rejected; otherwise the loop above runs and, if every line
validated, a new `Order` with status `"pending"` is persisted. -/
def checkout (st : State) (cartItems : List CartItem)
    (buyerId orderId : String) (now : Int) : Except Message Order × State :=
  if cartItems.length = 0 then
    (Except.error (Message.InvalidPayload "Cart is empty"), st)
  else
    match checkoutLoop st.products cartItems 0 [] with
    | (Except.error m, products1) => (Except.error m, { st with products := products1 })
    | (Except.ok (totalAmount, productsInOrder), products1) =>
      let order : Order :=
        { id := orderId
          buyerId := buyerId
          products := productsInOrder
          totalAmount := totalAmount
          status := "pending"
          createdAt := now }
      (Except.ok order,
       { st with
          products := products1
          orders := mapInsert st.orders orderId order })

/-- A JavaScript value that the source can leave in a nat64-declared field
of the in-memory `Product` before persisting it: the BigInt the program
computed, or a string it assigned (`release_payment` assigns the string
`"0"` to `escrowBalance`; `rate_product` assigns its raw `text` parameter
to `rating`). -/
inductive JsVal where
  | bigint (n : Int)
  | str (s : String)
deriving DecidableEq, Repr

/-- The number of values of a candid nat64: 2^64. -/
def nat64Bound : Int := 18446744073709551616

/-- Candid encoding of a BigInt at a nat64 field succeeds exactly for
0 <= n < 2^64; any other BigInt makes the encoder throw. -/
def nat64EncodableInt (n : Int) : Bool := decide (0 ≤ n ∧ n < nat64Bound)

/-- Whether candid can encode this product against the declared `Product`
type: every nat64 field must hold a BigInt in nat64 range. -/
def productEncodable (p : Product) : Bool :=
  nat64EncodableInt p.price && nat64EncodableInt p.stock
    && nat64EncodableInt p.rating && nat64EncodableInt p.escrowBalance

/-- `productsStorage.insert` of the in-memory product after its
`escrowBalance` field was assigned the JavaScript value `v`.  The insert
candid-encodes the record against the declared `Product` type: a nat64
field accepts only a BigInt in [0, 2^64), so a negative BigInt or a string
makes the encoder throw, the update call traps and every write of the call
is rolled back — modelled as `Option.none`. -/
def insertEscrowBalance (st : State) (productId : String) (product : Product)
    (v : JsVal) : Option State :=
  match v with
  | JsVal.bigint n =>
    let product1 := { product with escrowBalance := n }
    if productEncodable product1 then
      Option.some { st with products := mapInsert st.products productId product1 }
    else Option.none
  | JsVal.str _ => Option.none

/-- The same encoding-checked insert for an assignment into the `rating`
field. -/
def insertRating (st : State) (productId : String) (product : Product)
    (v : JsVal) : Option State :=
  match v with
  | JsVal.bigint n =>
    let product1 := { product with rating := n }
    if productEncodable product1 then
      Option.some { st with products := mapInsert st.products productId product1 }
    else Option.none
  | JsVal.str _ => Option.none

/-- `add_to_escrow` (source lines 428-439).  The amount is a `text`
parameter parsed with `BigInt(amount)`, so any integer can arrive here;
the source performs no validation of it.  The new balance is stored via
the encoding-checked insert: a sum outside nat64 range (for example after
a negative deposit exceeding the balance) traps instead of persisting. -/
def add_to_escrow (st : State) (productId : String) (amount : Int) :
    Option (Except Message Message × State) :=
  match mapGet st.products productId with
  | Option.none => Option.some (Except.error (Message.NotFound "Product not found"), st)
  | Option.some product =>
    match insertEscrowBalance st productId product
      (JsVal.bigint (product.escrowBalance + amount)) with
    | Option.some st1 =>
      Option.some (Except.ok (Message.Success "Escrow balance updated."), st1)
    | Option.none => Option.none

/-- `release_payment` (source lines 441-460).  Requires status `"sold"` and
no open dispute; the success path then executes
`product.escrowBalance = "0"` — the JavaScript *string* `"0"` assigned into
the nat64-declared field — and inserts the product.  Candid encoding
rejects a string for nat64, so the success branch traps and commits
nothing; only the two error replies are reachable for an existing
product. -/
def release_payment (st : State) (productId : String) :
    Option (Except Message Message × State) :=
  match mapGet st.products productId with
  | Option.none => Option.some (Except.error (Message.NotFound "Product not found"), st)
  | Option.some product =>
    if product.status ≠ "sold" then
      Option.some (Except.error (Message.Error "Product has not been sold yet."), st)
    else if product.disputeStatus then
      Option.some (Except.error (Message.Error "Dispute unresolved, cannot release payment."), st)
    else
      match insertEscrowBalance st productId product (JsVal.str "0") with
      | Option.some st1 =>
        Option.some (Except.ok (Message.Success "Payment released."), st1)
      | Option.none => Option.none

/-- `withdraw_from_escrow` (source lines 462-477).  The only guard is
`BigInt(product.escrowBalance) < BigInt(amount)`; there is no check that
the amount is positive.  The new balance goes through the encoding-checked
insert (it is non-negative whenever the old balance was, but a hugely
negative amount could push it past 2^64 and trap). -/
def withdraw_from_escrow (st : State) (productId : String) (amount : Int) :
    Option (Except Message Message × State) :=
  match mapGet st.products productId with
  | Option.none => Option.some (Except.error (Message.NotFound "Product not found"), st)
  | Option.some product =>
    if product.escrowBalance < amount then
      Option.some (Except.error (Message.Error "Insufficient escrow balance."), st)
    else
      match insertEscrowBalance st productId product
        (JsVal.bigint (product.escrowBalance - amount)) with
      | Option.some st1 =>
        Option.some (Except.ok (Message.Success "Amount withdrawn from escrow."), st1)
      | Option.none => Option.none

/-- `product_bid` (source lines 533-549).  The guard is the JavaScript
truthiness of `product.buyerAddress`, an `Opt(text)` object. -/
def product_bid (st : State) (productId buyerAddress : String) :
    Except Message Message × State :=
  match mapGet st.products productId with
  | Option.none => (Except.error (Message.NotFound "Product not found"), st)
  | Option.some product =>
    if product.buyerAddress.jsTruthy then
      (Except.error (Message.Error "Product has already been bid on."), st)
    else
      let product1 := { product with
        buyerAddress := OptText.some buyerAddress
        status := "Bid Placed" }
      (Except.ok (Message.Success "Bid placed successfully."),
       { st with products := mapInsert st.products productId product1 })

/-- `rate_product` (source lines 569-580).  The rating arrives as `text`
and is assigned raw into the nat64-declared rating field
(`product.rating = rating`) with no validation or conversion; the
subsequent insert candid-encodes the record, and a string never encodes as
nat64, so for an existing product the call always traps.  Only a missing
product produces a reply (`NotFound`). -/
def rate_product (st : State) (productId : String) (rating : String) :
    Option (Except Message Message × State) :=
  match mapGet st.products productId with
  | Option.none => Option.some (Except.error (Message.NotFound "Product not found"), st)
  | Option.some product =>
    match insertRating st productId product (JsVal.str rating) with
    | Option.some st1 =>
      Option.some (Except.ok (Message.Success "Product rated successfully."), st1)
    | Option.none => Option.none

/-! Specification-side observers used to state the checkout and rating
properties independently of the operational definitions above. -/

/-- Total quantity a cart requests for one product. -/
def cartQty : List CartItem → String → Int
  | [], _ => 0
  | it :: rest, pid =>
    (if it.productId = pid then it.quantity else 0) + cartQty rest pid

/-- The stored price of a product (0 when absent). -/
def priceOf (products : List (String × Product)) (pid : String) : Int :=
  match mapGet products pid with
  | Option.some p => p.price
  | Option.none => 0

/-- The checkout total a cart should produce: for each line, the price
currently stored for the referenced product times the quantity; the price
carried inside the cart item plays no role. -/
def cartTotal (products : List (String × Product)) : List CartItem → Int
  | [] => 0
  | it :: rest => priceOf products it.productId * it.quantity + cartTotal products rest

/-- The ratings of all stored reviews for one product. -/
def ratingsFor (reviews : List (String × Review)) (pid : String) : List Int :=
  ((mapValues reviews).filter (fun r => r.productId == pid)).map (fun r => r.rating)

/-- The derived product rating: the integer quotient, truncated toward
zero exactly as BigInt division does, of the sum of the ratings of all
stored reviews for the product by their count. -/
def avgRating (reviews : List (String × Review)) (pid : String) : Int :=
  Int.tdiv (ratingsFor reviews pid).sum ((ratingsFor reviews pid).length : Int)

/-- Every stored product is keyed by its own `id` field.  All products are
inserted under their `id`, so this holds of every reachable store; the
checkout loop persists under `product.id` while reading under
`item.productId`, which makes this the hypothesis tying the two. -/
@[reducible] def keyedById (products : List (String × Product)) : Prop :=
  ∀ kv ∈ products, Product.id kv.snd = kv.fst

/-- Every stored product has a non-negative stock and a non-negative
escrow balance — the invariant of the specification. -/
@[reducible] def nonNegProducts (products : List (String × Product)) : Prop :=
  ∀ kv ∈ products, 0 ≤ Product.stock kv.snd ∧ 0 ≤ Product.escrowBalance kv.snd

/-! Concrete fixtures used to exercise the operations. -/

/-- A listed product with stock 3 and price 10, as in the atomicity test of
the specification. -/
def c1Product : Product :=
  { id := "p1", sellerId := "s1", name := "apples", description := "crisp",
    category := "Fruits", price := 10, stock := 3, rating := 0, reviews := [],
    status := "available", escrowBalance := 0, disputeStatus := false,
    buyerAddress := OptText.none }

def c1State : State := { products := [("p1", c1Product)], orders := [], reviews := [] }

/-- Two lines of quantity 2 each for the same product. -/
def c1Cart : List CartItem :=
  [{ productId := "p1", quantity := 2, price := 10 },
   { productId := "p1", quantity := 2, price := 10 }]

/-- A freshly listed product: no bid has ever been placed
(`buyerAddress` is the azle `None`). -/
def c2Product : Product :=
  { id := "p2", sellerId := "s2", name := "beets", description := "red",
    category := "Vegetables", price := 5, stock := 7, rating := 0, reviews := [],
    status := "available", escrowBalance := 0, disputeStatus := false,
    buyerAddress := OptText.none }

def c2State : State := { products := [("p2", c2Product)], orders := [], reviews := [] }

def c3Product : Product :=
  { id := "p3", sellerId := "s3", name := "corn", description := "sweet",
    category := "Grains", price := 8, stock := 2, rating := 0, reviews := [],
    status := "available", escrowBalance := 0, disputeStatus := false,
    buyerAddress := OptText.none }

def c3State : State := { products := [("p3", c3Product)], orders := [], reviews := [] }

/-- The state after a successful deposit of 25 into the escrow of p3. -/
def c3After : State :=
  { products := [("p3", { c3Product with escrowBalance := 25 })]
    orders := []
    reviews := [] }

def c4Product : Product :=
  { id := "p4", sellerId := "s4", name := "kale", description := "green",
    category := "Vegetables", price := 3, stock := 9, rating := 0, reviews := [],
    status := "available", escrowBalance := 40, disputeStatus := false,
    buyerAddress := OptText.none }

def c4State : State := { products := [("p4", c4Product)], orders := [], reviews := [] }

def c5Product : Product :=
  { id := "p5", sellerId := "s5", name := "eggs", description := "dozen",
    category := "Poultry", price := 6, stock := 11, rating := 0, reviews := [],
    status := "available", escrowBalance := 0, disputeStatus := false,
    buyerAddress := OptText.none }

def c5State : State := { products := [("p5", c5Product)], orders := [], reviews := [] }

/-- The state after the negative-amount withdrawal: balance grown to 5. -/
def c5After : State :=
  { products := [("p5", { c5Product with escrowBalance := 5 })]
    orders := []
    reviews := [] }

/-- A product with an accepted-and-placed bid but not yet sold. -/
def c6Product : Product :=
  { id := "p6", sellerId := "s6", name := "plums", description := "ripe",
    category := "Fruits", price := 12, stock := 1, rating := 0, reviews := [],
    status := "Bid Placed", escrowBalance := 50, disputeStatus := false,
    buyerAddress := OptText.some "buyer-6" }

def c6State : State := { products := [("p6", c6Product)], orders := [], reviews := [] }

/-- A sold, undisputed product holding escrow funds. -/
def c6SoldProduct : Product :=
  { id := "p6s", sellerId := "s6", name := "pears", description := "ripe",
    category := "Fruits", price := 12, stock := 0, rating := 0, reviews := [],
    status := "sold", escrowBalance := 70, disputeStatus := false,
    buyerAddress := OptText.some "buyer-6" }

def c6SoldState : State :=
  { products := [("p6s", c6SoldProduct)], orders := [], reviews := [] }

/-- A syntactically complete payload whose stock is 0. -/
def c7Payload : ProductPayload :=
  { name := "Tomatoes", description := "Fresh", category := "Vegetables",
    price := 10, stock := 0 }

def c7State : State := { products := [], orders := [], reviews := [] }

def c8Product : Product :=
  { id := "p8", sellerId := "s8", name := "rice", description := "white",
    category := "Grains", price := 4, stock := 20, rating := 4, reviews := [],
    status := "available", escrowBalance := 0, disputeStatus := false,
    buyerAddress := OptText.none }

/-- A store already holding two reviews for the product, rated 4 and 5. -/
def c8State : State :=
  { products := [("p8", c8Product)]
    orders := []
    reviews :=
      [("r1", { productId := "p8", userId := "u1", rating := 4, comment := "good", createdAt := 1 }),
       ("r2", { productId := "p8", userId := "u2", rating := 5, comment := "great", createdAt := 2 })] }

def c8Payload : ReviewPayload := { productId := "p8", rating := 3, comment := "fine" }

/-- A listed product with stock 5 and price 10, as in the checkout scenario
of the specification. -/
def c9Product : Product :=
  { id := "p9", sellerId := "s9", name := "melons", description := "sweet",
    category := "Fruits", price := 10, stock := 5, rating := 0, reviews := [],
    status := "available", escrowBalance := 0, disputeStatus := false,
    buyerAddress := OptText.none }

def c9State : State := { products := [("p9", c9Product)], orders := [], reviews := [] }

/-- One line of quantity 2 carrying a deliberately wrong price of 999,
which checkout must ignore in favour of the stored price 10. -/
def c9Cart : List CartItem := [{ productId := "p9", quantity := 2, price := 999 }]

def c9Order : Order :=
  { id := "o9", buyerId := "b9",
    products := [{ productId := "p9", quantity := 2, price := 10 }],
    totalAmount := 20, status := "pending", createdAt := 0 }

def c9StateAfter : State :=
  { products := [("p9", { c9Product with stock := 3 })]
    orders := [("o9", c9Order)]
    reviews := [] }

def c10Product : Product :=
  { id := "p10", sellerId := "s10", name := "oats", description := "rolled",
    category := "Grains", price := 2, stock := 30, rating := 1, reviews := [],
    status := "available", escrowBalance := 0, disputeStatus := false,
    buyerAddress := OptText.none }

def c10State : State := { products := [("p10", c10Product)], orders := [], reviews := [] }

/-! Basic lemmas about the keyed-collection operations. -/

theorem mapGet_mapInsert_self {α : Type} (m : List (String × α)) (k : String) (v : α) :
    mapGet (mapInsert m k v) k = Option.some v := by
  induction m with
  | nil => simp [mapGet, mapInsert]
  | cons kv rest ih =>
    by_cases h : kv.fst = k
    · simp [mapInsert, mapGet, h]
    · simp only [mapInsert, beq_iff_eq, h, if_false]
      simpa [mapGet, h] using ih

theorem mapGet_mapInsert_ne {α : Type} (m : List (String × α)) (k k' : String) (v : α)
    (h : k ≠ k') : mapGet (mapInsert m k v) k' = mapGet m k' := by
  induction m with
  | nil => simp [mapGet, mapInsert, h]
  | cons kv rest ih =>
    by_cases hk : kv.fst = k
    · simp [mapInsert, mapGet, hk, h]
    · by_cases hk' : kv.fst = k'
      · simp [mapInsert, mapGet, hk, hk', Ne.symm h]
      · simp only [mapInsert, beq_iff_eq, hk, if_false]
        simpa [mapGet, hk'] using ih

theorem keyedById_mapGet {products : List (String × Product)} {k : String} {p : Product}
    (hwf : keyedById products) (h : mapGet products k = Option.some p) : p.id = k := by
  unfold mapGet at h
  rcases hfind : products.find? (fun kv => kv.fst == k) with _ | kv
  · rw [hfind] at h; simp at h
  · rw [hfind] at h
    have hmem := List.mem_of_find?_eq_some hfind
    have hkey := List.find?_some hfind
    have hid := hwf kv hmem
    have hsnd : kv.snd = p := by simpa using h
    rw [← hsnd, hid]
    exact beq_iff_eq.mp hkey

theorem keyedById_mapInsert {products : List (String × Product)} {k : String} {v : Product}
    (hwf : keyedById products) (hv : v.id = k) : keyedById (mapInsert products k v) := by
  induction products with
  | nil =>
    intro kv hmem
    simp [mapInsert] at hmem
    simp [hmem, hv]
  | cons kv₀ rest ih =>
    have hwf' : keyedById rest := fun kv hkv => hwf kv (List.mem_cons_of_mem _ hkv)
    intro kv hmem
    by_cases hk : kv₀.fst = k
    · simp only [mapInsert, beq_iff_eq, hk, if_true] at hmem
      rcases List.mem_cons.mp hmem with h | h
      · simp [h, hv]
      · exact hwf kv (List.mem_cons_of_mem _ h)
    · simp only [mapInsert, beq_iff_eq, hk, if_false] at hmem
      rcases List.mem_cons.mp hmem with h | h
      · exact h ▸ hwf kv₀ (List.mem_cons_self _ _)
      · exact ih hwf' kv h

theorem mapGet_mem {α : Type} {m : List (String × α)} {k : String} {v : α}
    (h : mapGet m k = Option.some v) : (k, v) ∈ m := by
  unfold mapGet at h
  rcases hfind : m.find? (fun kv => kv.fst == k) with _ | kv
  · rw [hfind] at h
    simp at h
  · rw [hfind] at h
    have hmem := List.mem_of_find?_eq_some hfind
    have hkey := List.find?_some hfind
    have hsnd : kv.snd = v := by simpa using h
    have hfst : kv.fst = k := by simpa using hkey
    rw [← hfst, ← hsnd]
    exact hmem

theorem nonNegProducts_mapGet {m : List (String × Product)} {k : String} {p : Product}
    (hm : nonNegProducts m) (h : mapGet m k = Option.some p) :
    0 ≤ p.stock ∧ 0 ≤ p.escrowBalance :=
  hm (k, p) (mapGet_mem h)

theorem mem_mapInsert {α : Type} (m : List (String × α)) (k : String) (v : α) :
    ∀ kv ∈ mapInsert m k v, kv = (k, v) ∨ kv ∈ m := by
  induction m with
  | nil =>
    intro kv hkv
    simp [mapInsert] at hkv
    exact Or.inl hkv
  | cons kv₀ rest ih =>
    intro kv hkv
    by_cases hk : kv₀.fst = k
    · simp only [mapInsert, beq_iff_eq, hk, if_true] at hkv
      rcases List.mem_cons.mp hkv with h | h
      · exact Or.inl h
      · exact Or.inr (List.mem_cons_of_mem _ h)
    · simp only [mapInsert, beq_iff_eq, hk, if_false] at hkv
      rcases List.mem_cons.mp hkv with h | h
      · exact Or.inr (h ▸ List.mem_cons_self _ _)
      · rcases ih kv h with h' | h'
        · exact Or.inl h'
        · exact Or.inr (List.mem_cons_of_mem _ h')

theorem nonNegProducts_mapInsert {m : List (String × Product)} {k : String} {v : Product}
    (hm : nonNegProducts m) (hs : 0 ≤ v.stock) (he : 0 ≤ v.escrowBalance) :
    nonNegProducts (mapInsert m k v) := by
  intro kv hkv
  rcases mem_mapInsert m k v kv hkv with h | h
  · rw [h]
    exact ⟨hs, he⟩
  · exact hm kv h

/-- A successful encoding-checked write of the escrow-balance field keeps
every stored product non-negative: the encoder only accepts a BigInt in
nat64 range, so the stored balance is non-negative, and the stock is the
fetched product's own. -/
theorem insertEscrowBalance_nonNeg {st : State} {productId : String} {product : Product}
    {v : JsVal} {st1 : State} (hinv : nonNegProducts st.products)
    (hstock : 0 ≤ product.stock)
    (h : insertEscrowBalance st productId product v = Option.some st1) :
    nonNegProducts st1.products := by
  cases v with
  | str s => simp [insertEscrowBalance] at h
  | bigint n =>
    simp only [insertEscrowBalance] at h
    by_cases henc : productEncodable { product with escrowBalance := n } = true
    · rw [if_pos henc] at h
      have h0 : 0 ≤ n := by
        simp [productEncodable, nat64EncodableInt] at henc
        omega
      rw [← Option.some.inj h]
      exact nonNegProducts_mapInsert hinv hstock h0
    · rw [if_neg henc] at h
      simp at h

/-- Any pass of the checkout loop — error or success — keeps every stored
product non-negative: each stock write is guarded by the current stock. -/
theorem checkoutLoop_preserves_nonNeg :
    ∀ (items : List CartItem) (products products1 : List (String × Product))
      (total0 : Int) (acc : List CartItem)
      (res : Except Message (Int × List CartItem)),
    nonNegProducts products →
    checkoutLoop products items total0 acc = (res, products1) →
    nonNegProducts products1 := by
  intro items
  induction items with
  | nil =>
    intro products products1 total0 acc res hnn h
    simp only [checkoutLoop, Prod.mk.injEq] at h
    exact h.2 ▸ hnn
  | cons it rest ih =>
    intro products products1 total0 acc res hnn h
    rcases hm : mapGet products it.productId with _ | p
    · simp only [checkoutLoop, hm, Prod.mk.injEq] at h
      exact h.2 ▸ hnn
    · simp only [checkoutLoop, hm] at h
      by_cases hstock : p.stock < it.quantity
      · rw [if_pos hstock] at h
        simp only [Prod.mk.injEq] at h
        exact h.2 ▸ hnn
      · rw [if_neg hstock] at h
        refine ih _ products1 _ _ res ?_ h
        refine nonNegProducts_mapInsert hnn ?_ (nonNegProducts_mapGet hnn hm).2
        show 0 ≤ p.stock - it.quantity
        omega

theorem priceOf_mapInsert_price_eq {products : List (String × Product)} {k : String}
    {p v : Product} (hk : mapGet products k = Option.some p) (hpr : v.price = p.price) :
    ∀ pid, priceOf (mapInsert products k v) pid = priceOf products pid := by
  intro pid
  by_cases hpid : k = pid
  · subst hpid
    rw [priceOf, priceOf, mapGet_mapInsert_self, hk]
    simpa using hpr
  · rw [priceOf, priceOf, mapGet_mapInsert_ne _ _ _ _ hpid]

theorem cartTotal_congr {m₁ m₂ : List (String × Product)}
    (h : ∀ pid, priceOf m₁ pid = priceOf m₂ pid) :
    ∀ items : List CartItem, cartTotal m₁ items = cartTotal m₂ items := by
  intro items
  induction items with
  | nil => rfl
  | cons it rest ih => simp [cartTotal, h, ih]

theorem foldl_add_rating (l : List Review) (a : Int) :
    l.foldl (fun sum r => sum + r.rating) a = a + (l.map (fun r => r.rating)).sum := by
  induction l generalizing a with
  | nil => simp
  | cons r rest ih => simp [List.foldl_cons, ih, add_assoc]

theorem product_set_stock_self (p : Product) : { p with stock := p.stock } = p := rfl

/-- What a successful pass of the checkout loop produces: the accumulated
total grows by the cart total priced from the initial store, the recorded
line items snapshot the stored prices, and every product record is mapped
to itself with its stock reduced by the quantity the cart requests for it
(other fields untouched). -/
theorem checkoutLoop_ok_spec :
    ∀ (items : List CartItem) (products products' : List (String × Product))
      (total0 total : Int) (acc lines : List CartItem),
    keyedById products →
    checkoutLoop products items total0 acc = (Except.ok (total, lines), products') →
    total = total0 + cartTotal products items
    ∧ lines = acc ++ items.map (fun it =>
        { productId := it.productId, quantity := it.quantity,
          price := priceOf products it.productId })
    ∧ ∀ pid, mapGet products' pid = (mapGet products pid).map
        (fun p => { p with stock := p.stock - cartQty items pid }) := by
  intro items
  induction items with
  | nil =>
    intro products products' total0 total acc lines _ h
    simp only [checkoutLoop, Prod.mk.injEq, Except.ok.injEq] at h
    obtain ⟨⟨ht, hl⟩, hp⟩ := h
    subst ht; subst hl; subst hp
    refine ⟨by simp [cartTotal], by simp, ?_⟩
    intro pid
    simp [cartQty, product_set_stock_self]
  | cons it rest ih =>
    intro products products' total0 total acc lines hwf h
    rcases hm : mapGet products it.productId with _ | p
    · simp only [checkoutLoop, hm] at h
      simp at h
    · simp only [checkoutLoop, hm] at h
      by_cases hstock : p.stock < it.quantity
      · rw [if_pos hstock] at h
        simp at h
      · rw [if_neg hstock] at h
        have hid : p.id = it.productId := keyedById_mapGet hwf hm
        have hmid : mapGet products p.id = Option.some p := by rw [hid]; exact hm
        have hwf1 : keyedById
            (mapInsert products p.id ({ p with stock := p.stock - it.quantity })) :=
          keyedById_mapInsert hwf rfl
        obtain ⟨ht, hl, hs⟩ := ih _ products' _ total _ lines hwf1 h
        have hprice := priceOf_mapInsert_price_eq hmid
          (rfl : ({ p with stock := p.stock - it.quantity } : Product).price = p.price)
        have hpit : priceOf products it.productId = p.price := by rw [priceOf, hm]
        refine ⟨?_, ?_, ?_⟩
        · rw [ht, cartTotal_congr hprice rest, cartTotal, hpit]
          ring
        · simp only [hprice] at hl
          rw [hl, List.append_assoc]
          simp [hpit]
        · intro pid
          rw [hs pid]
          by_cases hpid : p.id = pid
          · subst hpid
            rw [mapGet_mapInsert_self, hmid]
            simp only [Option.map_some']
            have hcq : cartQty (it :: rest) p.id =
                it.quantity + cartQty rest p.id := by
              simp [cartQty, hid]
            rw [hcq]
            simp [sub_sub]
          · rw [mapGet_mapInsert_ne _ _ _ _ hpid]
            have hcq : cartQty (it :: rest) pid = cartQty rest pid := by
              have hne : it.productId ≠ pid := by rw [← hid]; exact hpid
              simp [cartQty, hne]
            rw [hcq]

/-- Claim C9: on a successful checkout, the order total is the sum over the
cart lines of the stored price times the quantity (the price carried in the
cart item is ignored), the order status is `"pending"`, each recorded line
item snapshots the stored price, and every product record keeps all its
fields except that its stock is decremented by the quantity the cart
purchased of it (in particular the status is unchanged). -/
theorem checkout_success_spec (st : State) (cartItems : List CartItem)
    (buyerId orderId : String) (now : Int) (order : Order) (st' : State)
    (hwf : keyedById st.products)
    (h : checkout st cartItems buyerId orderId now = (Except.ok order, st')) :
    order.totalAmount = cartTotal st.products cartItems
    ∧ order.status = "pending"
    ∧ order.products = cartItems.map (fun it =>
        { productId := it.productId, quantity := it.quantity,
          price := priceOf st.products it.productId })
    ∧ ∀ pid, mapGet st'.products pid = (mapGet st.products pid).map
        (fun p => { p with stock := p.stock - cartQty cartItems pid }) := by
  by_cases hempty : cartItems.length = 0
  · simp [checkout, hempty] at h
  · rw [checkout, if_neg hempty] at h
    rcases hloop : checkoutLoop st.products cartItems 0 [] with ⟨res, products1⟩
    rw [hloop] at h
    cases res with
    | error m => simp at h
    | ok pr =>
      rcases pr with ⟨totalAmount, productsInOrder⟩
      simp only [Prod.mk.injEq, Except.ok.injEq] at h
      obtain ⟨ho, hst⟩ := h
      obtain ⟨ht, hl, hs⟩ := checkoutLoop_ok_spec cartItems st.products products1 0
        totalAmount [] productsInOrder hwf hloop
      subst ho
      refine ⟨by simpa using ht, rfl, by simpa using hl, ?_⟩
      intro pid
      rw [← hst]
      simpa using hs pid

/-- Claim C9 witness: stock 5, price 10, quantity 2 (the cart carries a
wrong price of 999) gives total 20, stock 3 and an unchanged
`"available"` status. -/
theorem checkout_success_spec_witness :
    keyedById c9State.products
    ∧ checkout c9State c9Cart "b9" "o9" 0 = (Except.ok c9Order, c9StateAfter)
    ∧ c9Order.totalAmount = cartTotal c9State.products c9Cart
    ∧ c9Order.status = "pending"
    ∧ c9Order.totalAmount = 20
    ∧ mapGet c9StateAfter.products "p9" = Option.some ({ c9Product with stock := 3 })
    ∧ ({ c9Product with stock := (3 : Int) }).status = "available" := by
  have hwf : keyedById c9State.products := by decide
  have hrun : checkout c9State c9Cart "b9" "o9" 0 = (Except.ok c9Order, c9StateAfter) := by
    decide
  have h := checkout_success_spec c9State c9Cart "b9" "o9" 0 c9Order c9StateAfter hwf hrun
  exact ⟨hwf, hrun, h.1, h.2.1, by decide, by decide, by decide⟩

/-- Claim C1 (code bug evidence): on a cart with two lines of quantity 2
for the same product with stock 3, checkout returns the insufficient-stock
error but the first line's decrement has already been persisted: the stock
is left at 1, not 3.  Checkout is not all-or-nothing. -/
theorem checkout_not_atomic_bug :
    (checkout c1State c1Cart "b1" "o1" 0).1 =
      Except.error (Message.Error "Insufficient stock for product: apples")
    ∧ c1Product.stock = 3
    ∧ mapGet (checkout c1State c1Cart "b1" "o1" 0).2.products "p1" =
        Option.some ({ c1Product with stock := 1 }) := by decide

/-- Claim C2 (code bug evidence): on a product whose `buyerAddress` is the
azle `None` (never bid on), `product_bid` already fails with the
already-bid-on conflict error, because the guard tests the JavaScript
truthiness of the `Opt` object, which is truthy for `None` as well.
No bid can ever succeed. -/
theorem product_bid_always_conflict_bug :
    c2Product.buyerAddress = OptText.none
    ∧ product_bid c2State "p2" "buyer-1" =
        (Except.error (Message.Error "Product has already been bid on."), c2State) := by decide

/-- Claim C3: the non-negativity invariant holds.  If every stored product
has non-negative stock and escrow balance, then after any reply of
`add_to_escrow` (any caller-supplied amount), `withdraw_from_escrow` or
`checkout` — error replies included, since their partial writes commit —
every stored product still does.  A deposit that would make the balance
negative fails nat64 candid encoding at insert, so the call traps
(`Option.none`) and, the writes being rolled back, the unchanged state
keeps the invariant; closure under sequences of these operations follows
from the per-operation preservation. -/
theorem escrow_stock_nonneg_invariant (st : State) (hinv : nonNegProducts st.products) :
    (∀ productId amount res st1,
      add_to_escrow st productId amount = Option.some (res, st1) →
      nonNegProducts st1.products)
    ∧ (∀ productId amount res st1,
      withdraw_from_escrow st productId amount = Option.some (res, st1) →
      nonNegProducts st1.products)
    ∧ (∀ cartItems buyerId orderId now res st1,
      checkout st cartItems buyerId orderId now = (res, st1) →
      nonNegProducts st1.products) := by
  refine ⟨?_, ?_, ?_⟩
  · intro productId amount res st1 h
    rcases hm : mapGet st.products productId with _ | product
    · simp only [hm, add_to_escrow, Option.some.injEq, Prod.mk.injEq] at h
      exact h.2 ▸ hinv
    · simp only [hm, add_to_escrow] at h
      rcases hins : insertEscrowBalance st productId product
          (JsVal.bigint (product.escrowBalance + amount)) with _ | st2
      · rw [hins] at h
        simp at h
      · rw [hins] at h
        simp only [Option.some.injEq, Prod.mk.injEq] at h
        exact h.2 ▸ insertEscrowBalance_nonNeg hinv
          (nonNegProducts_mapGet hinv hm).1 hins
  · intro productId amount res st1 h
    rcases hm : mapGet st.products productId with _ | product
    · simp only [hm, withdraw_from_escrow, Option.some.injEq, Prod.mk.injEq] at h
      exact h.2 ▸ hinv
    · simp only [hm, withdraw_from_escrow] at h
      by_cases hguard : product.escrowBalance < amount
      · rw [if_pos hguard] at h
        simp only [Option.some.injEq, Prod.mk.injEq] at h
        exact h.2 ▸ hinv
      · rw [if_neg hguard] at h
        rcases hins : insertEscrowBalance st productId product
            (JsVal.bigint (product.escrowBalance - amount)) with _ | st2
        · rw [hins] at h
          simp at h
        · rw [hins] at h
          simp only [Option.some.injEq, Prod.mk.injEq] at h
          exact h.2 ▸ insertEscrowBalance_nonNeg hinv
            (nonNegProducts_mapGet hinv hm).1 hins
  · intro cartItems buyerId orderId now res st1 h
    by_cases hempty : cartItems.length = 0
    · rw [checkout, if_pos hempty] at h
      simp only [Prod.mk.injEq] at h
      exact h.2 ▸ hinv
    · rw [checkout, if_neg hempty] at h
      rcases hloop : checkoutLoop st.products cartItems 0 [] with ⟨lres, products1⟩
      rw [hloop] at h
      have hpres := checkoutLoop_preserves_nonNeg cartItems st.products products1
        0 [] lres hinv hloop
      cases lres with
      | error m =>
        simp only [Prod.mk.injEq] at h
        exact h.2 ▸ hpres
      | ok pr =>
        simp only [Prod.mk.injEq] at h
        exact h.2 ▸ hpres

/-- Claim C3 witness: on a store satisfying the invariant, a concrete
deposit reply preserves it, and the negative deposit that would break it
traps instead of replying. -/
theorem escrow_stock_nonneg_invariant_witness :
    nonNegProducts c3State.products
    ∧ add_to_escrow c3State "p3" 25 =
        Option.some (Except.ok (Message.Success "Escrow balance updated."), c3After)
    ∧ nonNegProducts c3After.products
    ∧ add_to_escrow c3State "p3" (-1) = Option.none := by
  refine ⟨by decide, by decide, ?_, by decide⟩
  exact (escrow_stock_nonneg_invariant c3State (by decide)).1 "p3" 25
    (Except.ok (Message.Success "Escrow balance updated.")) c3After (by decide)

/-- Claim C4 (code bug evidence): `add_to_escrow` with amount 0 does not
fail with any error: it reports success and re-stores the unchanged
balance (40 + 0, a valid nat64), since the source performs no validation
of the amount at all. -/
theorem add_to_escrow_zero_amount_bug :
    add_to_escrow c4State "p4" 0 =
      Option.some (Except.ok (Message.Success "Escrow balance updated."), c4State) := by decide

/-- Claim C5 (code bug evidence): `withdraw_from_escrow` with a negative
amount passes the only guard (`balance < amount` is false) and *increases*
the balance: withdrawing -5 from a balance of 0 reports success and stores
a balance of 5 (a valid nat64, so the insert encodes) instead of failing
with an insufficient-funds error. -/
theorem withdraw_negative_amount_bug :
    c5Product.escrowBalance = 0
    ∧ withdraw_from_escrow c5State "p5" (-5) =
        Option.some (Except.ok (Message.Success "Amount withdrawn from escrow."), c5After) := by
  decide

/-- Claim C6 (code bug evidence): the error halves behave as claimed — a
`"Bid Placed"` product gets the not-sold error with the state unchanged —
but the success half does not: on a sold, undisputed product the success
path assigns the JavaScript string `"0"` to the nat64 `escrowBalance`
field, candid encoding rejects a string at insert and the call traps.
`release_payment` never replies with success and never zeroes the
balance. -/
theorem release_payment_sold_traps_bug :
    c6SoldProduct.status = "sold"
    ∧ c6SoldProduct.disputeStatus = false
    ∧ release_payment c6SoldState "p6s" = Option.none
    ∧ release_payment c6State "p6" =
        Option.some (Except.error (Message.Error "Product has not been sold yet."), c6State) := by
  decide

/-- Claim C7 (code bug evidence): a payload that is complete but has
stock 0 is rejected by `addProduct` as an invalid payload, because the
presence check `!payload.stock` treats the BigInt `0n` as missing; the
`"out of stock"` initial status in the source is unreachable.  No product
is created and the state is unchanged. -/
theorem addProduct_zero_stock_bug :
    c7Payload.stock = 0
    ∧ addProduct c7State c7Payload "seller7" "p7" =
        (Except.error (Message.InvalidPayload
          "Ensure name, description, category, price, and stock are provided."), c7State) := by
  decide

/-- Claim C10 counterexample: contrary to the claim, `rate_product` on an
existing product does not return Success and does not overwrite the rating
at the concrete input rating `"100"` — the call traps (`Option.none`), so
no reply and no state exist. -/
theorem rate_product_no_success_counterexample :
    mapGet c10State.products "p10" = Option.some c10Product
    ∧ rate_product c10State "p10" "100" = Option.none := by decide

/-- Claim C10 (amended): for every existing product and any caller-supplied
rating text, `rate_product` traps: the raw string assigned into the nat64
`rating` field fails candid encoding at insert, so the call never returns
Success and never changes the product; only a missing product produces a
reply, with `NotFound`. -/
theorem rate_product_always_traps (st : State) (productId : String) (r : String)
    (product : Product) (h : mapGet st.products productId = Option.some product) :
    rate_product st productId r = Option.none := by
  simp [rate_product, h, insertRating]

/-- Claim C10 witness: an in-range rating text `"3"` traps all the same. -/
theorem rate_product_always_traps_witness :
    mapGet c10State.products "p10" = Option.some c10Product
    ∧ rate_product c10State "p10" "3" = Option.none :=
  ⟨by decide, rate_product_always_traps c10State "p10" "3" c10Product (by decide)⟩

/-- Claim C8: a rating outside [1,5] makes `addReview` fail with an
invalid-payload error and append nothing; a rating within [1,5] (with a
present product id and comment) appends the review and recomputes the
product rating as the truncated integer quotient of the sum of the ratings
of all stored reviews for that product by their count. -/
theorem addReview_rating_spec (st : State) (payload : ReviewPayload)
    (userId reviewId : String) (now : Int) (product : Product)
    (hp : mapGet st.products payload.productId = Option.some product)
    (hid : product.id = payload.productId) :
    ((payload.rating < 1 ∨ payload.rating > 5) →
      (addReview st payload userId reviewId now).2 = st ∧
      ∃ msg, (addReview st payload userId reviewId now).1 =
        Except.error (Message.InvalidPayload msg))
    ∧ (1 ≤ payload.rating → payload.rating ≤ 5 →
      jsTruthyString payload.productId = true →
      jsTruthyString payload.comment = true →
      (addReview st payload userId reviewId now).1 = Except.ok
        { productId := payload.productId, userId := userId,
          rating := payload.rating, comment := payload.comment, createdAt := now }
      ∧ (addReview st payload userId reviewId now).2.reviews =
          mapInsert st.reviews reviewId
            { productId := payload.productId, userId := userId,
              rating := payload.rating, comment := payload.comment, createdAt := now }
      ∧ mapGet (addReview st payload userId reviewId now).2.products payload.productId =
          Option.some
            ({ product with rating := avgRating (addReview st payload userId reviewId now).2.reviews payload.productId })) := by
  constructor
  · intro hout
    by_cases htr : (jsTruthyString payload.productId && jsTruthyInt payload.rating
        && jsTruthyString payload.comment) = true
    · have hcall : addReview st payload userId reviewId now =
          (Except.error (Message.InvalidPayload "Rating must be between 1 and 5"), st) := by
        rw [addReview, if_neg (by simp [htr]), if_pos hout]
      rw [hcall]
      exact ⟨rfl, _, rfl⟩
    · have hfalse : (jsTruthyString payload.productId && jsTruthyInt payload.rating
          && jsTruthyString payload.comment) = false := Bool.eq_false_iff.mpr htr
      have hcall : addReview st payload userId reviewId now =
          (Except.error (Message.InvalidPayload
            "Ensure productId, rating, and comment are provided."), st) := by
        rw [addReview, if_pos (by simp [hfalse])]
      rw [hcall]
      exact ⟨rfl, _, rfl⟩
  · intro h1 h5 hPid hCom
    have hB : jsTruthyInt payload.rating = true := by
      simp only [jsTruthyInt, bne_iff_ne, ne_eq]
      omega
    have hrange : ¬(payload.rating < 1 ∨ payload.rating > 5) := by omega
    simp only [addReview, hPid, hB, hCom, Bool.and_self, Bool.and_true, Bool.true_and,
      Bool.not_true, Bool.false_eq_true, if_false, hrange, hp]
    refine ⟨trivial, trivial, ?_⟩
    simp only [hid, mapGet_mapInsert_self, Option.some.injEq]
    simp [avgRating, ratingsFor, foldl_add_rating, hid]

/-- Claim C8 witness: with prior ratings [4, 5] stored for the product,
adding a review rated 3 recomputes the rating to 4 (the truncated quotient
12 / 3). -/
theorem addReview_rating_spec_witness :
    mapGet c8State.products "p8" = Option.some c8Product
    ∧ c8Product.id = "p8"
    ∧ mapGet (addReview c8State c8Payload "u3" "r3" 9).2.products "p8" =
        Option.some ({ c8Product with rating := avgRating (addReview c8State c8Payload "u3" "r3" 9).2.reviews "p8" })
    ∧ avgRating (addReview c8State c8Payload "u3" "r3" 9).2.reviews "p8" = 4 := by
  refine ⟨by decide, by decide, ?_, by decide⟩
  have h := (addReview_rating_spec c8State c8Payload "u3" "r3" 9 c8Product
    (by decide) (by decide)).2 (by decide) (by decide) (by decide) (by decide)
  exact h.2.2

end AgriLink
